import Mathlib

/-
Verification development for the MCP chatbot client (`mcp_local_client.py`).

The embedding below translates the orchestration logic of the `MCP_ChatBot`
class into pure Lean functions:
  * the sessions registry (`self.sessions`, a Python dict from capability key
    to session) is an association list `List (String × Nat)` with Python dict
    semantics (`dictGet` / `dictSet`: first-match read, overwrite-in-place
    write, append for a fresh key, insertion order preserved);
  * the model backend (`ollama.chat`) is a parameter
    `chat : List Message → ModelResponse`;
  * tool invocation (`session.call_tool`) is a parameter
    `callTool : Nat → ToolCall → Except String (List String)` returning the
    `.text` fragments of the result contents, or an exception;
  * exceptions are `Except` / `Option` values threaded explicitly;
  * console output and invocation order are recorded in an event trace so that
    "tool X was invoked" and "the model backend was invoked" are observable.
-/

namespace MCPClient

/-- Role tag of the user turn appended by `process_query`. -/
def roleUser : String := "user"

/-- Role tag of the assistant turns appended inside the tool loop. -/
def roleAssistant : String := "assistant"

/-- Role tag of the tool-result turns appended inside the tool loop. -/
def roleTool : String := "tool"

/-- Scheme prefix recognised by the `get_resource` fallback scan. -/
def papersPrefix : String := "papers://"

/-- Literal that terminates the interactive chat loop. -/
def quitWord : String := "quit"

/-- Prefix of the error message printed by the chat loop handler. -/
def errPrefix : String := "Error: "

/-- Python `str.strip()`: drop leading and trailing whitespace (modelled over
the character list so that the kernel can evaluate it). -/
def strTrim (s : String) : String :=
  String.mk
    (((s.data.dropWhile Char.isWhitespace).reverse.dropWhile
      Char.isWhitespace).reverse)

/-- Python `str.lower()` (modelled over the character list so that the kernel
can evaluate it). -/
def strLower (s : String) : String :=
  String.mk (s.data.map Char.toLower)

/-- Bool test that one character list is an initial segment of another. -/
def isPre : List Char → List Char → Bool
  | [], _ => true
  | _ :: _, [] => false
  | c :: cs, d :: ds => c == d && isPre cs ds

/-- Python `str.startswith(pre)` (modelled over the character lists so that
the kernel can evaluate it). -/
def strStartsWith (s pre : String) : Bool := isPre pre.data s.data

/-- One role-tagged turn of the conversation transcript (`messages` list). -/
structure Message where
  role : String
  content : String
deriving DecidableEq

/-- One tool-call request inside a model response
(`tool.function.name` / `tool.function.arguments`). -/
structure ToolCall where
  name : String
  arguments : String
deriving DecidableEq

/-- The assistant message returned by the model backend:
`response.message.content` and `response.message.tool_calls or []`. -/
structure ModelResponse where
  content : String
  tool_calls : List ToolCall

/-- Observable events of one `process_query` run: a model-backend invocation,
a tool invocation (`session.call_tool` reached), or the "tool not found"
report. -/
inductive Ev where
  | modelCall : Ev
  | toolInvoked : String → Ev
  | toolNotFound : String → Ev
deriving DecidableEq

/-- Python `dict.get`: value of the first (and only) entry with this key. -/
def dictGet (d : List (String × Nat)) (k : String) : Option Nat :=
  (d.find? (fun p => p.1 == k)).map (fun p => p.2)

/-- Python `dict.__setitem__`: overwrite an existing key in place (the entry
keeps its position), otherwise append the new entry at the end — insertion
order is preserved, as in CPython dicts. -/
def dictSet : List (String × Nat) → String → Nat → List (String × Nat)
  | [], k, v => [(k, v)]
  | p :: rest, k, v =>
    if p.1 == k then (k, v) :: rest else p :: dictSet rest k v

/-- The `for tool in response.message.tool_calls or []:` loop body of
`MCP_ChatBot.process_query` (lines 112–136).  Each iteration first appends the
assistant turn (the join of `assistant_content`, i.e. the response content),
then resolves the tool name in the sessions registry: an unresolved name
reports "tool not found" and breaks out of the batch; a resolved tool is
invoked, and a raised invocation error propagates (returned as `some e`);
on success the joined output texts are appended as one tool-role turn.
Returns (messages, trace, has_tool_use, raised exception). -/
def toolLoop (sessions : List (String × Nat))
    (callTool : Nat → ToolCall → Except String (List String))
    (ac : String) :
    List ToolCall → List Message → List Ev → Bool →
    List Message × List Ev × Bool × Option String
  | [], msgs, tr, hasToolUse => (msgs, tr, hasToolUse, none)
  | tc :: rest, msgs, tr, _ =>
    let msgs2 := msgs ++ [⟨roleAssistant, ac⟩]
    match dictGet sessions tc.name with
    | none => (msgs2, tr ++ [Ev.toolNotFound tc.name], true, none)
    | some s =>
      match callTool s tc with
      | Except.error e => (msgs2, tr ++ [Ev.toolInvoked tc.name], true, some e)
      | Except.ok texts =>
        toolLoop sessions callTool ac rest
          (msgs2 ++ [⟨roleTool, String.join texts⟩])
          (tr ++ [Ev.toolInvoked tc.name]) true

/-- One model turn of `process_query`: given the backend response, run the
tool-call batch with `assistant_content = [response.message.content]`
(so the joined assistant content is exactly `resp.content`), starting with
`has_tool_use = False`. -/
def modelTurn (sessions : List (String × Nat))
    (callTool : Nat → ToolCall → Except String (List String))
    (resp : ModelResponse) (msgs : List Message) (tr : List Ev) :
    List Message × List Ev × Bool × Option String :=
  toolLoop sessions callTool resp.content resp.tool_calls msgs tr false

/-- Outcome of the `while True:` dispatch loop: normal termination
(`break` on `not has_tool_use`), a propagated exception, or fuel exhaustion
(an artifact of the shallow embedding; the Python loop has no fuel bound). -/
inductive QOutcome where
  | terminated : QOutcome
  | raised : String → QOutcome
  | fuelOut : QOutcome
deriving DecidableEq

/-- The `while True:` loop of `MCP_ChatBot.process_query` (lines 99–140):
invoke the model backend on the transcript, process the tool-call batch,
propagate a raised tool error, loop back when `has_tool_use` was set, and
terminate otherwise. -/
def qloop (chat : List Message → ModelResponse) (sessions : List (String × Nat))
    (callTool : Nat → ToolCall → Except String (List String)) :
    Nat → List Message → List Ev → QOutcome × List Message × List Ev
  | 0, msgs, tr => (QOutcome.fuelOut, msgs, tr)
  | fuel + 1, msgs, tr =>
    match modelTurn sessions callTool (chat msgs) msgs (tr ++ [Ev.modelCall]) with
    | (msgs2, tr2, _, some e) => (QOutcome.raised e, msgs2, tr2)
    | (msgs2, tr2, true, none) => qloop chat sessions callTool fuel msgs2 tr2
    | (msgs2, tr2, false, none) => (QOutcome.terminated, msgs2, tr2)

/-- `MCP_ChatBot.process_query` (lines 95–140): seed the transcript with one
user turn and run the dispatch loop. -/
def process_query (chat : List Message → ModelResponse)
    (sessions : List (String × Nat))
    (callTool : Nat → ToolCall → Except String (List String))
    (fuel : Nat) (query : String) : QOutcome × List Message × List Ev :=
  qloop chat sessions callTool fuel [⟨roleUser, query⟩] []

/-- A discovered tool as reported by `session.list_tools()`: `tool.name`,
`tool.description`, and the three fields the adapter reads off the
`inputSchema` dict (`inputSchema.get("type")`, `inputSchema.get("required")`,
`inputSchema.get("properties")`; `dict.get` yields `None` when absent, hence
`Option`; the properties value is kept opaque as a string). -/
structure ToolInfo where
  name : String
  description : String
  schemaType : Option String
  schemaRequired : Option (List String)
  schemaProperties : Option String
deriving DecidableEq

/-- The model-facing function schema appended to `self.available_tools`
(lines 48–59): `{"type": "function", "function": {name, description,
parameters: {type, required}, properties}}`. -/
structure ToolSchema where
  ttype : String
  name : String
  description : String
  paramsType : Option String
  paramsRequired : Option (List String)
  properties : Option String
deriving DecidableEq

/-- A discovered prompt as appended to `self.available_prompts`
(lines 64–70): name, description and argument names. -/
structure PromptInfo where
  name : String
  description : String
  arguments : List String
deriving DecidableEq

/-- The mutable state of one `MCP_ChatBot` instance that registration
touches: the sessions registry and the two descriptor lists. -/
structure ChatState where
  sessions : List (String × Nat)
  available_tools : List ToolSchema
  available_prompts : List PromptInfo
deriving DecidableEq

/-- The literal `"function"` written into every adapted tool schema. -/
def functionType : String := "function"

/-- Register one discovered tool list (lines 45–59): for each tool, map its
name to the session and append the adapted schema to `available_tools`. -/
def registerTools (st : ChatState) (sid : Nat) : List ToolInfo → ChatState
  | [] => st
  | t :: rest =>
    registerTools
      { st with
        sessions := dictSet st.sessions t.name sid,
        available_tools := st.available_tools ++
          [⟨functionType, t.name, t.description, t.schemaType, t.schemaRequired,
            t.schemaProperties⟩] }
      sid rest

/-- Register one discovered prompt list (lines 64–70). -/
def registerPrompts (st : ChatState) (sid : Nat) : List PromptInfo → ChatState
  | [] => st
  | p :: rest =>
    registerPrompts
      { st with
        sessions := dictSet st.sessions p.name sid,
        available_prompts := st.available_prompts ++ [p] }
      sid rest

/-- Register one discovered resource-URI list (lines 74–76): routing only,
no descriptor stored. -/
def registerResources (st : ChatState) (sid : Nat) : List String → ChatState
  | [] => st
  | uri :: rest =>
    registerResources { st with sessions := dictSet st.sessions uri sid } sid rest

/-- The `if prompts_response and prompts_response.prompts:` truthiness guard
(line 63): a falsy response or falsy `.prompts` field registers nothing. -/
def registerPromptsOpt (st : ChatState) (sid : Nat) :
    Option (List PromptInfo) → ChatState
  | none => st
  | some ps => registerPrompts st sid ps

/-- The `if resources_response and resources_response.resources:` truthiness
guard (line 73). -/
def registerResourcesOpt (st : ChatState) (sid : Nat) :
    Option (List String) → ChatState
  | none => st
  | some uris => registerResources st sid uris

/-- The three capability-discovery results of one session: each of
`list_tools()`, `list_prompts()`, `list_resources()` may raise
(`Except.error`), and the prompt/resource responses may be falsy (`none`). -/
structure Discovery where
  tools : Except String (List ToolInfo)
  prompts : Except String (Option (List PromptInfo))
  resources : Except String (Option (List String))

/-- The discovery/registration block of `MCP_ChatBot.connect_to_server`
(lines 43–79): a SINGLE `try` wraps all three capability classes, attempted
in the order tools, prompts, resources; the first raising class aborts the
rest of the block, and the single `except` reports the error (the returned
`Bool` is the error-reported flag). -/
def connectRegister (st : ChatState) (sid : Nat) (d : Discovery) :
    ChatState × Bool :=
  match d.tools with
  | Except.error _ => (st, true)
  | Except.ok ts =>
    let st1 := registerTools st sid ts
    match d.prompts with
    | Except.error _ => (st1, true)
    | Except.ok ps =>
      let st2 := registerPromptsOpt st1 sid ps
      match d.resources with
      | Except.error _ => (st2, true)
      | Except.ok rs => (registerResourcesOpt st2 sid rs, false)

/-- Names of prompts behind the truthiness guard. -/
def promptNames : Option (List PromptInfo) → List String
  | none => []
  | some ps => ps.map (fun p => p.name)

/-- Resource URIs behind the truthiness guard. -/
def resourceUris : Option (List String) → List String
  | none => []
  | some rs => rs

/-- All capability keys a discovery result exposes (tool names, prompt names,
resource URIs), in registration order; a failing class exposes nothing. -/
def exposedKeys (d : Discovery) : List String :=
  (match d.tools with
   | Except.ok ts => ts.map (fun t => t.name)
   | Except.error _ => []) ++
  (match d.prompts with
   | Except.ok ps => promptNames ps
   | Except.error _ => []) ++
  (match d.resources with
   | Except.ok rs => resourceUris rs
   | Except.error _ => [])

/-- Registration of a plain key list into the sessions registry, used to
characterise the `sessions` component of the register functions. -/
def regList (d : List (String × Nat)) (ks : List String) (v : Nat) :
    List (String × Nat) :=
  ks.foldl (fun acc k => dictSet acc k v) d

/-- Outcome of `MCP_ChatBot.get_resource` (lines 142–165): not-found report,
the first content text printed, the "No content available." report, or a
caught read error. -/
inductive ROutcome where
  | notFound : ROutcome
  | printed : String → ROutcome
  | noContent : ROutcome
  | errorMsg : String → ROutcome
deriving DecidableEq

/-- Result of `get_resource`: which session the read operation was performed
on (if any), and the console outcome. -/
structure RResult where
  used : Option Nat
  out : ROutcome
deriving DecidableEq

/-- Session resolution of `get_resource` (lines 143–150): direct registry
lookup; on a miss, if and only if the URI starts with `"papers://"`, scan the
registered keys in iteration order and take the session of the first key with
that prefix. -/
def resolveResource (sessions : List (String × Nat)) (uri : String) :
    Option Nat :=
  match dictGet sessions uri with
  | some s => some s
  | none =>
    if strStartsWith uri papersPrefix then
      (sessions.find? (fun p => strStartsWith p.1 papersPrefix)).map
        (fun p => p.2)
    else none

/-- `MCP_ChatBot.get_resource` (lines 142–165): resolve the session (with the
papers fallback); report not-found when unresolved, performing no session
operation; otherwise read the resource (`rd` returns the content texts, or
`none` for a falsy result, or raises) and print the first content text,
"No content available." for an empty result, or the caught error. -/
def get_resource (sessions : List (String × Nat))
    (rd : Nat → String → Except String (Option (List String)))
    (uri : String) : RResult :=
  match resolveResource sessions uri with
  | none => ⟨none, ROutcome.notFound⟩
  | some s =>
    match rd s uri with
    | Except.error e => ⟨some s, ROutcome.errorMsg e⟩
    | Except.ok none => ⟨some s, ROutcome.noContent⟩
    | Except.ok (some []) => ⟨some s, ROutcome.noContent⟩
    | Except.ok (some (t :: _)) => ⟨some s, ROutcome.printed t⟩

/-- A content item inside a prompt-message content list: either an object
exposing a `.text` attribute, or anything else (rendered via `str(item)`). -/
inductive ContentItem where
  | textItem : String → ContentItem
  | other : String → ContentItem
deriving DecidableEq

/-- The text the list branch of the extractor reads off one item:
`item.text if hasattr(item, 'text') else str(item)`. -/
def itemText : ContentItem → String
  | ContentItem.textItem t => t
  | ContentItem.other r => r

/-- The three content shapes `execute_prompt` handles (lines 195–202): a
plain string, a single object exposing a `.text` field, or a sequence of
content items. -/
inductive PromptContent where
  | str : String → PromptContent
  | obj : String → PromptContent
  | items : List ContentItem → PromptContent
deriving DecidableEq

/-- Separator used by `" ".join(...)`. -/
def spaceSep : String := " "

/-- The content extraction of `execute_prompt` (lines 195–202): the string
itself, the object's `text` field, or the items' texts joined with single
spaces. -/
def extractText : PromptContent → String
  | PromptContent.str s => s
  | PromptContent.obj t => t
  | PromptContent.items l => String.intercalate spaceSep (l.map itemText)

/-- One message returned by `session.get_prompt`. -/
structure PromptMessage where
  role : String
  content : PromptContent
deriving DecidableEq

/-- Console outcome of `MCP_ChatBot.execute_prompt` (lines 182–207):
not-found report, silent return (falsy result or no messages), a caught
error, or a dispatch-loop run on the extracted query. -/
inductive POutcome where
  | notFound : POutcome
  | silent : POutcome
  | errorMsg : String → POutcome
  | ran : String → List Message → List Ev → QOutcome → POutcome
deriving DecidableEq

/-- Result of `execute_prompt`: the query fed into `process_query` (if the
code reached that call), and the console outcome. -/
structure PResult where
  fed : Option String
  out : POutcome
deriving DecidableEq

/-- `MCP_ChatBot.execute_prompt` (lines 182–207): resolve the prompt name
(not-found report on a miss); retrieve the prompt (`gp` returns the message
list, `none` for a falsy result, or raises — the raise is caught and
reported); a falsy result or empty message list returns silently; otherwise
extract the text of the first message's content and feed it as a new user
query into `process_query` (whose own raised errors the same handler
catches). -/
def execute_prompt (chat : List Message → ModelResponse)
    (sessions : List (String × Nat))
    (callTool : Nat → ToolCall → Except String (List String))
    (fuel : Nat)
    (gp : Nat → String → List (String × String) →
      Except String (Option (List PromptMessage)))
    (name : String) (args : List (String × String)) : PResult :=
  match dictGet sessions name with
  | none => ⟨none, POutcome.notFound⟩
  | some s =>
    match gp s name args with
    | Except.error e => ⟨none, POutcome.errorMsg e⟩
    | Except.ok none => ⟨none, POutcome.silent⟩
    | Except.ok (some []) => ⟨none, POutcome.silent⟩
    | Except.ok (some (m :: _)) =>
      let q := extractText m.content
      match process_query chat sessions callTool fuel q with
      | (QOutcome.raised e, _, _) => ⟨some q, POutcome.errorMsg e⟩
      | (outc, msgs, tr) => ⟨some q, POutcome.ran q msgs tr outc⟩

/-- Disposition of one iteration of `MCP_ChatBot.chat_loop` (lines 213–225):
blank input ignored, quit request, a completed query, or a caught exception
(the `except` prints `"Error: ..."`); all but `quits` continue the loop. -/
inductive ChatStep where
  | ignored : ChatStep
  | quits : ChatStep
  | ok : ChatStep
  | caught : String → ChatStep
deriving DecidableEq

/-- One iteration of `MCP_ChatBot.chat_loop` (lines 213–225): trim the raw
input, skip blanks, honour (case-insensitive) `quit`, otherwise run
`process_query` inside the `try` whose `except` catches any raised error and
prints a readable message, keeping the process alive. -/
def chat_loop_step (chat : List Message → ModelResponse)
    (sessions : List (String × Nat))
    (callTool : Nat → ToolCall → Except String (List String))
    (fuel : Nat) (rawInput : String) : ChatStep :=
  let query := strTrim rawInput
  if query = "" then ChatStep.ignored
  else if strLower query = quitWord then ChatStep.quits
  else
    match process_query chat sessions callTool fuel query with
    | (QOutcome.raised e, _, _) => ChatStep.caught (errPrefix ++ e)
    | _ => ChatStep.ok

/-
Concrete instances used to exercise the definitions.
-/

/-- A sample user query. -/
def qEx : String := "hi"

/-- A sample tool name. -/
def addStr : String := "add"

/-- A tool name registered by no session. -/
def missStr : String := "missing"

/-- Opaque sample tool arguments. -/
def argsStr : String := "args"

/-- A sample tool output fragment. -/
def resFive : String := "5"

/-- A sample exception message. -/
def errBoom : String := "boom"

/-- A sample assistant reply. -/
def helloStr : String := "hello"

/-- The empty assistant content. -/
def emptyStr : String := ""

/-- A sample final assistant reply. -/
def doneStr : String := "done"

/-- A tool call that resolves in `sessionsAdd`. -/
def tcAdd : ToolCall := ⟨addStr, argsStr⟩

/-- A tool call that resolves in no registry used here. -/
def tcMissing : ToolCall := ⟨missStr, argsStr⟩

/-- A tool backend that always succeeds with one fragment. -/
def ctOk : Nat → ToolCall → Except String (List String) :=
  fun _ _ => Except.ok [resFive]

/-- A tool backend that always raises. -/
def ctErr : Nat → ToolCall → Except String (List String) :=
  fun _ _ => Except.error errBoom

/-- A model backend whose every response carries zero tool calls. -/
def chatNoTools : List Message → ModelResponse :=
  fun _ => ⟨helloStr, []⟩

/-- A model backend that requests `tcAdd` on the first turn and stops on the
second. -/
def chatOneTool : List Message → ModelResponse :=
  fun msgs => if msgs.length ≤ 1 then ⟨emptyStr, [tcAdd]⟩ else ⟨doneStr, []⟩

/-- A registry exposing only the `add` tool on session 1. -/
def sessionsAdd : List (String × Nat) := [(addStr, 1)]

/-- Sample tool name resolved by session 1. -/
def alphaStr : String := "alpha"

/-- Sample tool name resolved by session 2. -/
def betaStr : String := "beta"

/-- A tool call on `alphaStr`. -/
def tcA : ToolCall := ⟨alphaStr, argsStr⟩

/-- A tool call on `betaStr`. -/
def tcB : ToolCall := ⟨betaStr, argsStr⟩

/-- A registry with two tools on two sessions. -/
def sessionsAB : List (String × Nat) := [(alphaStr, 1), (betaStr, 2)]

/-- A tool backend where session 1 succeeds and session 2 raises. -/
def ctMix : Nat → ToolCall → Except String (List String) :=
  fun s _ => if s = 1 then Except.ok [resFive] else Except.error errBoom

/-- A model backend that requests `[tcA, tcB]` on the first turn. -/
def chatTwoTools : List Message → ModelResponse :=
  fun msgs => if msgs.length ≤ 1 then ⟨emptyStr, [tcA, tcB]⟩ else ⟨doneStr, []⟩

/-- Transcript after the first `chatOneTool` turn against `sessionsAdd`. -/
def msgs2Ex : List Message :=
  [⟨roleUser, qEx⟩, ⟨roleAssistant, emptyStr⟩, ⟨roleTool, resFive⟩]

/-- Trace after the first `chatOneTool` turn against `sessionsAdd`. -/
def tr2Ex : List Ev := [Ev.modelCall, Ev.toolInvoked addStr]

/-- A sample shared capability key. -/
def xStr : String := "x"

/-- A sample prompt name. -/
def pStr : String := "p"

/-- A sample capability description. -/
def descStr : String := "desc"

/-- A resource URI under the papers scheme, not registered below. -/
def uriP1 : String := "papers://123"

/-- A resource URI under the papers scheme, registered below. -/
def uriP2 : String := "papers://456"

/-- A resource URI outside the papers scheme. -/
def uriOther : String := "docs://9"

/-- The empty chatbot state. -/
def st0 : ChatState := ⟨[], [], []⟩

/-- A discovered tool named `xStr`. -/
def toolX : ToolInfo := ⟨xStr, descStr, none, none, none⟩

/-- A discovered prompt named `pStr`. -/
def promptP : PromptInfo := ⟨pStr, descStr, []⟩

/-- A discovery result exposing only the tool `xStr`. -/
def dToolX : Discovery := ⟨Except.ok [toolX], Except.ok none, Except.ok none⟩

/-- A discovery where tools discovery raises while prompts and resources
would succeed and expose `pStr` and `uriP2`. -/
def dFailTools : Discovery :=
  ⟨Except.error errBoom, Except.ok (some [promptP]), Except.ok (some [uriP2])⟩

/-- A discovery where tools succeed and prompts discovery raises. -/
def dFailPrompts : Discovery :=
  ⟨Except.ok [toolX], Except.error errBoom, Except.ok (some [uriP2])⟩

/-- A registry exposing one papers resource on session 3. -/
def sessionsPapers : List (String × Nat) := [(uriP2, 3)]

/-- A resource reader that always returns one content text. -/
def rdOk : Nat → String → Except String (Option (List String)) :=
  fun _ _ => Except.ok (some [resFive])

/-- The literal prompt text of the spec's example. -/
def sumStr : String := "Summarize X"

/-- A prompt message whose content is the literal string `sumStr`. -/
def pmStr : PromptMessage := ⟨roleUser, PromptContent.str sumStr⟩

/-- A prompt backend returning one plain-string message. -/
def gpStr : Nat → String → List (String × String) →
    Except String (Option (List PromptMessage)) :=
  fun _ _ _ => Except.ok (some [pmStr])

/-- A prompt backend returning a result with an empty message list. -/
def gpEmpty : Nat → String → List (String × String) →
    Except String (Option (List PromptMessage)) :=
  fun _ _ _ => Except.ok (some [])

/-- A prompt backend returning a falsy result. -/
def gpFalsy : Nat → String → List (String × String) →
    Except String (Option (List PromptMessage)) :=
  fun _ _ _ => Except.ok none

/-- A registry exposing the prompt `pStr` on session 1. -/
def sessionsP : List (String × Nat) := [(pStr, 1)]

/-- Count of assistant-role turns in a transcript. -/
def aCount (msgs : List Message) : Nat :=
  msgs.countP (fun m => m.role == roleAssistant)

/-- Count of tool-role turns in a transcript. -/
def tCount (msgs : List Message) : Nat :=
  msgs.countP (fun m => m.role == roleTool)

/-
Helper lemmas.
-/

theorem dictGet_set_self (d : List (String × Nat)) (k : String) (v : Nat) :
    dictGet (dictSet d k v) k = some v := by
  induction d with
  | nil => simp [dictGet, dictSet]
  | cons p rest ih =>
    by_cases h : p.1 = k
    · simp [dictGet, dictSet, h]
    · simpa [dictGet, dictSet, h] using ih

theorem dictGet_set_ne (d : List (String × Nat)) (k : String) (v : Nat)
    (key : String) (h : key ≠ k) :
    dictGet (dictSet d k v) key = dictGet d key := by
  induction d with
  | nil => simp [dictGet, dictSet, Ne.symm h]
  | cons p rest ih =>
    by_cases hp : p.1 = k
    · simp [dictGet, dictSet, hp, Ne.symm h, h]
    · by_cases hpk : p.1 = key
      · simp [dictGet, dictSet, hp, hpk, h]
      · simpa [dictGet, dictSet, hp, hpk] using ih

theorem regList_cons (d : List (String × Nat)) (k : String) (ks : List String)
    (v : Nat) : regList d (k :: ks) v = regList (dictSet d k v) ks v := rfl

theorem regList_get (d : List (String × Nat)) (ks : List String) (v : Nat)
    (key : String) :
    dictGet (regList d ks v) key = if key ∈ ks then some v else dictGet d key := by
  induction ks generalizing d with
  | nil => simp [regList]
  | cons k ks ih =>
    rw [regList_cons, ih]
    by_cases hk : key ∈ ks
    · simp [hk]
    · by_cases hkk : key = k
      · simp [hk, hkk, dictGet_set_self]
      · simp [hk, hkk, dictGet_set_ne _ _ _ _ hkk]

theorem registerTools_sessions (sid : Nat) (ts : List ToolInfo) (st : ChatState) :
    (registerTools st sid ts).sessions =
      regList st.sessions (ts.map (fun t => t.name)) sid := by
  induction ts generalizing st with
  | nil => rfl
  | cons t rest ih => simp [registerTools, ih, regList_cons]

theorem registerPrompts_sessions (sid : Nat) (ps : List PromptInfo)
    (st : ChatState) :
    (registerPrompts st sid ps).sessions =
      regList st.sessions (ps.map (fun p => p.name)) sid := by
  induction ps generalizing st with
  | nil => rfl
  | cons p rest ih => simp [registerPrompts, ih, regList_cons]

theorem registerResources_sessions (sid : Nat) (uris : List String)
    (st : ChatState) :
    (registerResources st sid uris).sessions = regList st.sessions uris sid := by
  induction uris generalizing st with
  | nil => rfl
  | cons uri rest ih => simp [registerResources, ih, regList_cons]

theorem registerPromptsOpt_sessions (sid : Nat) (ps : Option (List PromptInfo))
    (st : ChatState) :
    (registerPromptsOpt st sid ps).sessions =
      regList st.sessions (promptNames ps) sid := by
  cases ps with
  | none => rfl
  | some l => simpa [registerPromptsOpt, promptNames] using
      registerPrompts_sessions sid l st

theorem registerResourcesOpt_sessions (sid : Nat) (rs : Option (List String))
    (st : ChatState) :
    (registerResourcesOpt st sid rs).sessions =
      regList st.sessions (resourceUris rs) sid := by
  cases rs with
  | none => rfl
  | some l => simpa [registerResourcesOpt, resourceUris] using
      registerResources_sessions sid l st

theorem connectRegister_ok (st : ChatState) (sid : Nat) (d : Discovery)
    (ts : List ToolInfo) (ps : Option (List PromptInfo))
    (rs : Option (List String)) (ht : d.tools = Except.ok ts)
    (hp : d.prompts = Except.ok ps) (hr : d.resources = Except.ok rs) :
    (connectRegister st sid d).1.sessions =
      regList (regList (regList st.sessions (ts.map (fun t => t.name)) sid)
        (promptNames ps) sid) (resourceUris rs) sid ∧
    (connectRegister st sid d).2 = false := by
  simp [connectRegister, ht, hp, hr, registerTools_sessions,
    registerPromptsOpt_sessions, registerResourcesOpt_sessions]

theorem toolLoop_msgs_ext (sessions : List (String × Nat))
    (callTool : Nat → ToolCall → Except String (List String)) (ac : String)
    (tcs : List ToolCall) :
    ∀ (msgs : List Message) (tr : List Ev) (b : Bool),
      ∃ t, (toolLoop sessions callTool ac tcs msgs tr b).1 = msgs ++ t := by
  induction tcs with
  | nil => intro msgs tr b; exact ⟨[], by simp [toolLoop]⟩
  | cons tc rest ih =>
    intro msgs tr b
    cases hs : dictGet sessions tc.name with
    | none => exact ⟨[⟨roleAssistant, ac⟩], by simp [toolLoop, hs]⟩
    | some s =>
      cases hc : callTool s tc with
      | error e => exact ⟨[⟨roleAssistant, ac⟩], by simp [toolLoop, hs, hc]⟩
      | ok texts =>
        obtain ⟨u, hu⟩ := ih
          (msgs ++ [⟨roleAssistant, ac⟩] ++ [⟨roleTool, String.join texts⟩])
          (tr ++ [Ev.toolInvoked tc.name]) true
        refine ⟨[⟨roleAssistant, ac⟩] ++ [⟨roleTool, String.join texts⟩] ++ u, ?_⟩
        simp only [toolLoop, hs, hc]
        simpa [List.append_assoc] using hu

theorem toolLoop_tr_ext (sessions : List (String × Nat))
    (callTool : Nat → ToolCall → Except String (List String)) (ac : String)
    (tcs : List ToolCall) :
    ∀ (msgs : List Message) (tr : List Ev) (b : Bool),
      ∃ u, (toolLoop sessions callTool ac tcs msgs tr b).2.1 = tr ++ u := by
  induction tcs with
  | nil => intro msgs tr b; exact ⟨[], by simp [toolLoop]⟩
  | cons tc rest ih =>
    intro msgs tr b
    cases hs : dictGet sessions tc.name with
    | none => exact ⟨[Ev.toolNotFound tc.name], by simp [toolLoop, hs]⟩
    | some s =>
      cases hc : callTool s tc with
      | error e => exact ⟨[Ev.toolInvoked tc.name], by simp [toolLoop, hs, hc]⟩
      | ok texts =>
        obtain ⟨u, hu⟩ := ih
          (msgs ++ [⟨roleAssistant, ac⟩] ++ [⟨roleTool, String.join texts⟩])
          (tr ++ [Ev.toolInvoked tc.name]) true
        refine ⟨[Ev.toolInvoked tc.name] ++ u, ?_⟩
        simp only [toolLoop, hs, hc]
        simpa [List.append_assoc] using hu

theorem modelTurn_msgs_ext (sessions : List (String × Nat))
    (callTool : Nat → ToolCall → Except String (List String))
    (resp : ModelResponse) (msgs : List Message) (tr : List Ev) :
    ∃ t, (modelTurn sessions callTool resp msgs tr).1 = msgs ++ t :=
  toolLoop_msgs_ext sessions callTool resp.content resp.tool_calls msgs tr false

theorem modelTurn_tr_ext (sessions : List (String × Nat))
    (callTool : Nat → ToolCall → Except String (List String))
    (resp : ModelResponse) (msgs : List Message) (tr : List Ev) :
    ∃ u, (modelTurn sessions callTool resp msgs tr).2.1 = tr ++ u :=
  toolLoop_tr_ext sessions callTool resp.content resp.tool_calls msgs tr false

theorem qloop_msgs_ext (chat : List Message → ModelResponse)
    (sessions : List (String × Nat))
    (callTool : Nat → ToolCall → Except String (List String)) (fuel : Nat) :
    ∀ (msgs : List Message) (tr : List Ev),
      ∃ t, (qloop chat sessions callTool fuel msgs tr).2.1 = msgs ++ t := by
  induction fuel with
  | zero => intro msgs tr; exact ⟨[], by simp [qloop]⟩
  | succ fuel ih =>
    intro msgs tr
    rcases hm : modelTurn sessions callTool (chat msgs) msgs (tr ++ [Ev.modelCall])
      with ⟨msgs2, tr2, b, err⟩
    obtain ⟨t, ht⟩ :=
      modelTurn_msgs_ext sessions callTool (chat msgs) msgs (tr ++ [Ev.modelCall])
    rw [hm] at ht
    simp only at ht
    simp only [qloop, hm]
    cases err with
    | some e => cases b <;> exact ⟨t, ht⟩
    | none =>
      cases b with
      | false => exact ⟨t, ht⟩
      | true =>
        obtain ⟨v, hv⟩ := ih msgs2 tr2
        exact ⟨t ++ v, by rw [hv, ht, List.append_assoc]⟩

theorem qloop_tr_ext (chat : List Message → ModelResponse)
    (sessions : List (String × Nat))
    (callTool : Nat → ToolCall → Except String (List String)) (fuel : Nat) :
    ∀ (msgs : List Message) (tr : List Ev),
      ∃ u, (qloop chat sessions callTool fuel msgs tr).2.2 = tr ++ u := by
  induction fuel with
  | zero => intro msgs tr; exact ⟨[], by simp [qloop]⟩
  | succ fuel ih =>
    intro msgs tr
    rcases hm : modelTurn sessions callTool (chat msgs) msgs (tr ++ [Ev.modelCall])
      with ⟨msgs2, tr2, b, err⟩
    obtain ⟨u, hu⟩ :=
      modelTurn_tr_ext sessions callTool (chat msgs) msgs (tr ++ [Ev.modelCall])
    rw [hm] at hu
    simp only at hu
    rw [List.append_assoc] at hu
    simp only [qloop, hm]
    cases err with
    | some e => cases b <;> exact ⟨[Ev.modelCall] ++ u, hu⟩
    | none =>
      cases b with
      | false => exact ⟨[Ev.modelCall] ++ u, hu⟩
      | true =>
        obtain ⟨v, hv⟩ := ih msgs2 tr2
        exact ⟨[Ev.modelCall] ++ u ++ v, by
          rw [hv, hu, List.append_assoc, List.append_assoc]⟩

theorem qloop_step_modelCall (chat : List Message → ModelResponse)
    (sessions : List (String × Nat))
    (callTool : Nat → ToolCall → Except String (List String)) (fuel : Nat)
    (msgs : List Message) (tr : List Ev) :
    ∃ w, (qloop chat sessions callTool (fuel + 1) msgs tr).2.2 =
      tr ++ Ev.modelCall :: w := by
  obtain ⟨u, hu⟩ := qloop_tr_ext chat sessions callTool (fuel + 1) msgs tr
  rcases hm : modelTurn sessions callTool (chat msgs) msgs (tr ++ [Ev.modelCall])
    with ⟨msgs2, tr2, b, err⟩
  obtain ⟨w, hw⟩ :=
    modelTurn_tr_ext sessions callTool (chat msgs) msgs (tr ++ [Ev.modelCall])
  rw [hm] at hw
  simp only at hw
  rw [List.append_assoc] at hw
  simp only [qloop, hm]
  cases err with
  | some e => cases b <;> exact ⟨w, by simpa using hw⟩
  | none =>
    cases b with
    | false => exact ⟨w, by simpa using hw⟩
    | true =>
      obtain ⟨v, hv⟩ := qloop_tr_ext chat sessions callTool fuel msgs2 tr2
      exact ⟨w ++ v, by
        rw [hv, hw]
        simp [List.append_assoc]⟩

/-
Claims.
-/

/-- C1: in the dispatch loop (`process_query`), a model turn whose response
carries tool calls `[A, B]` where `A` resolves in the registry (and its
invocation succeeds) while `B` does not resolve: `A` is invoked and its joined
result is appended as exactly one tool-role turn, then "tool not found" is
reported for `B` and the batch is aborted — `B` is never invoked and no
subsequent tool call of the batch is processed. -/
theorem C1_missing_tool_aborts_batch (sessions : List (String × Nat))
    (callTool : Nat → ToolCall → Except String (List String)) (c : String)
    (A B : ToolCall) (s : Nat) (texts : List String) (msgs : List Message)
    (tr : List Ev) (hA : dictGet sessions A.name = some s)
    (hok : callTool s A = Except.ok texts)
    (hB : dictGet sessions B.name = none) :
    modelTurn sessions callTool ⟨c, [A, B]⟩ msgs tr =
      (msgs ++ [⟨roleAssistant, c⟩, ⟨roleTool, String.join texts⟩,
        ⟨roleAssistant, c⟩],
       tr ++ [Ev.toolInvoked A.name, Ev.toolNotFound B.name], true, none) ∧
    Ev.toolInvoked B.name ∉
      ([Ev.toolInvoked A.name, Ev.toolNotFound B.name] : List Ev) ∧
    tCount [⟨roleAssistant, c⟩, ⟨roleTool, String.join texts⟩,
      ⟨roleAssistant, c⟩] = 1 := by
  have hne : A.name ≠ B.name := by
    intro h
    rw [h, hB] at hA
    exact Option.noConfusion hA
  refine ⟨?_, ?_, ?_⟩
  · simp [modelTurn, toolLoop, hA, hok, hB, List.append_assoc]
  · simp [Ne.symm hne]
  · simp [tCount, roleAssistant, roleTool, List.countP_cons]

/-- Witness for C1 at a concrete registry, backend and batch. -/
theorem C1_missing_tool_aborts_batch_witness :
    dictGet sessionsAdd tcAdd.name = some 1 ∧
    ctOk 1 tcAdd = Except.ok [resFive] ∧
    dictGet sessionsAdd tcMissing.name = none ∧
    (modelTurn sessionsAdd ctOk ⟨emptyStr, [tcAdd, tcMissing]⟩ [] [] =
      ([⟨roleAssistant, emptyStr⟩, ⟨roleTool, String.join [resFive]⟩,
        ⟨roleAssistant, emptyStr⟩],
       [Ev.toolInvoked tcAdd.name, Ev.toolNotFound tcMissing.name], true,
       none) ∧
     Ev.toolInvoked tcMissing.name ∉
       ([Ev.toolInvoked tcAdd.name, Ev.toolNotFound tcMissing.name] :
         List Ev) ∧
     tCount [⟨roleAssistant, emptyStr⟩, ⟨roleTool, String.join [resFive]⟩,
       ⟨roleAssistant, emptyStr⟩] = 1) :=
  ⟨rfl, rfl, rfl,
   C1_missing_tool_aborts_batch sessionsAdd ctOk emptyStr tcAdd tcMissing 1
     [resFive] [] [] rfl rfl rfl⟩

/-- C2: a model turn whose response carries zero tool calls terminates the
dispatch loop; when the very first response carries zero tool calls,
`process_query` performs exactly one model-backend invocation; and a turn
that processed at least one tool call (batch completed with `has_tool_use`
set and no raised error) loops back — the dispatch loop re-invokes the model
backend on the updated transcript. -/
theorem C2_loop_termination (chat : List Message → ModelResponse)
    (sessions : List (String × Nat))
    (callTool : Nat → ToolCall → Except String (List String)) :
    (∀ (fuel : Nat) (q : String), (chat [⟨roleUser, q⟩]).tool_calls = [] →
      process_query chat sessions callTool (fuel + 1) q =
        (QOutcome.terminated, [⟨roleUser, q⟩], [Ev.modelCall])) ∧
    (∀ (fuel : Nat) (msgs : List Message) (tr : List Ev),
      (chat msgs).tool_calls = [] →
      qloop chat sessions callTool (fuel + 1) msgs tr =
        (QOutcome.terminated, msgs, tr ++ [Ev.modelCall])) ∧
    (∀ (fuel : Nat) (msgs msgs2 : List Message) (tr tr2 : List Ev),
      modelTurn sessions callTool (chat msgs) msgs (tr ++ [Ev.modelCall]) =
        (msgs2, tr2, true, none) →
      qloop chat sessions callTool (fuel + 1 + 1) msgs tr =
        qloop chat sessions callTool (fuel + 1) msgs2 tr2 ∧
      ∃ w, (qloop chat sessions callTool (fuel + 1) msgs2 tr2).2.2 =
        tr2 ++ Ev.modelCall :: w) := by
  refine ⟨?_, ?_, ?_⟩
  · intro fuel q h
    simp [process_query, qloop, modelTurn, toolLoop, h]
  · intro fuel msgs tr h
    simp [qloop, modelTurn, toolLoop, h]
  · intro fuel msgs msgs2 tr tr2 h
    exact ⟨by simp only [qloop, h], qloop_step_modelCall chat sessions callTool
      fuel msgs2 tr2⟩

/-- Witness for C2: a first response with zero tool calls stops after one
backend call; a first turn that processed the `add` tool call loops back and
re-invokes the backend. -/
theorem C2_loop_termination_witness :
    ((chatNoTools [⟨roleUser, qEx⟩]).tool_calls = [] ∧
     process_query chatNoTools sessionsAdd ctOk 1 qEx =
       (QOutcome.terminated, [⟨roleUser, qEx⟩], [Ev.modelCall])) ∧
    (modelTurn sessionsAdd ctOk (chatOneTool [⟨roleUser, qEx⟩])
       [⟨roleUser, qEx⟩] [Ev.modelCall] = (msgs2Ex, tr2Ex, true, none) ∧
     qloop chatOneTool sessionsAdd ctOk 2 [⟨roleUser, qEx⟩] [] =
       qloop chatOneTool sessionsAdd ctOk 1 msgs2Ex tr2Ex ∧
     ∃ w, (qloop chatOneTool sessionsAdd ctOk 1 msgs2Ex tr2Ex).2.2 =
       tr2Ex ++ Ev.modelCall :: w) :=
  ⟨⟨rfl, (C2_loop_termination chatNoTools sessionsAdd ctOk).1 0 qEx rfl⟩,
   ⟨rfl, (C2_loop_termination chatOneTool sessionsAdd ctOk).2.2 0
     [⟨roleUser, qEx⟩] msgs2Ex [] tr2Ex rfl⟩⟩

/-- C3: last-registered-wins — for any prior registration (any earlier state,
any first session/discovery, hence in either order) and any second session
whose discovery succeeds and exposes `key` (as a tool name, prompt name or
resource URI), after both registrations the registry lookup of `key` yields
the later-registered session, and no collision error is reported. -/
theorem C3_last_registered_wins (st : ChatState) (sid1 sid2 : Nat)
    (d1 d2 : Discovery) (ts : List ToolInfo) (ps : Option (List PromptInfo))
    (rs : Option (List String)) (key : String)
    (ht : d2.tools = Except.ok ts) (hp : d2.prompts = Except.ok ps)
    (hr : d2.resources = Except.ok rs) (hk : key ∈ exposedKeys d2) :
    dictGet (connectRegister (connectRegister st sid1 d1).1 sid2 d2).1.sessions
      key = some sid2 ∧
    (connectRegister (connectRegister st sid1 d1).1 sid2 d2).2 = false := by
  obtain ⟨hs, hb⟩ :=
    connectRegister_ok (connectRegister st sid1 d1).1 sid2 d2 ts ps rs ht hp hr
  refine ⟨?_, hb⟩
  rw [hs, regList_get, regList_get, regList_get]
  simp only [exposedKeys, ht, hp, hr, List.mem_append] at hk
  by_cases h3 : key ∈ resourceUris rs
  · simp [h3]
  · by_cases h2 : key ∈ promptNames ps
    · simp [h3, h2]
    · have h1 : key ∈ ts.map (fun t => t.name) := by
        rcases hk with (ha | hb2) | hc2
        · exact ha
        · exact absurd hb2 h2
        · exact absurd hc2 h3
      simp [h3, h2, h1]

/-- Witness for C3: two sessions both exposing the tool `xStr`; lookup after
both registrations yields session 2. -/
theorem C3_last_registered_wins_witness :
    dToolX.tools = Except.ok [toolX] ∧ dToolX.prompts = Except.ok none ∧
    dToolX.resources = Except.ok none ∧ xStr ∈ exposedKeys dToolX ∧
    (dictGet (connectRegister (connectRegister st0 1 dToolX).1 2
        dToolX).1.sessions xStr = some 2 ∧
     (connectRegister (connectRegister st0 1 dToolX).1 2 dToolX).2 = false) :=
  ⟨rfl, rfl, rfl, by decide,
   C3_last_registered_wins st0 1 2 dToolX dToolX [toolX] none none xStr
     rfl rfl rfl (by decide)⟩

/-- C4 counterexample: at the concrete discovery `dFailTools` (its tools
discovery raises while its prompts discovery would succeed with prompt
`pStr` and its resources discovery with `uriP2`), registration leaves the
state untouched: neither the prompts class nor the resources class is
attempted after the tools failure, refuting the claimed per-class
independence. -/
theorem C4_counterexample :
    dFailTools.prompts = Except.ok (some [promptP]) ∧
    dFailTools.resources = Except.ok (some [uriP2]) ∧
    connectRegister st0 1 dFailTools = (st0, true) ∧
    dictGet (connectRegister st0 1 dFailTools).1.sessions pStr = none ∧
    dictGet (connectRegister st0 1 dFailTools).1.sessions uriP2 = none :=
  ⟨rfl, rfl, rfl, rfl, rfl⟩

/-- C4 amended: `connect_to_server` wraps all three capability classes in a
single try block, so a failure while discovering one class is reported and
aborts discovery of the remaining classes for that session; classes attempted
before the failure keep their registrations.  With tools discovered
successfully and prompts discovery failing, the resulting state is exactly
the tools registrations and the error is reported. -/
theorem C4_single_try_aborts (st : ChatState) (sid : Nat) (d : Discovery)
    (ts : List ToolInfo) (e : String) (ht : d.tools = Except.ok ts)
    (hp : d.prompts = Except.error e) :
    connectRegister st sid d = (registerTools st sid ts, true) := by
  simp [connectRegister, ht, hp]

/-- Witness for C4 amended at the concrete discovery `dFailPrompts`. -/
theorem C4_single_try_aborts_witness :
    dFailPrompts.tools = Except.ok [toolX] ∧
    dFailPrompts.prompts = Except.error errBoom ∧
    connectRegister st0 1 dFailPrompts = (registerTools st0 1 [toolX], true) :=
  ⟨rfl, rfl, C4_single_try_aborts st0 1 dFailPrompts [toolX] errBoom rfl rfl⟩

theorem toolLoop_aCount (sessions : List (String × Nat))
    (callTool : Nat → ToolCall → Except String (List String)) (ac : String)
    (tcs : List ToolCall) :
    ∀ (msgs : List Message) (tr : List Ev) (b : Bool),
      (∀ tc ∈ tcs, ∃ s texts, dictGet sessions tc.name = some s ∧
        callTool s tc = Except.ok texts) →
      aCount (toolLoop sessions callTool ac tcs msgs tr b).1 =
        aCount msgs + tcs.length := by
  induction tcs with
  | nil => intro msgs tr b _; simp [toolLoop]
  | cons tc rest ih =>
    intro msgs tr b h
    obtain ⟨s, texts, hs, hc⟩ := h tc (List.mem_cons_self tc rest)
    have hrest : ∀ tc2 ∈ rest, ∃ s texts, dictGet sessions tc2.name = some s ∧
        callTool s tc2 = Except.ok texts :=
      fun tc2 hm => h tc2 (List.mem_cons_of_mem tc hm)
    simp only [toolLoop, hs, hc]
    rw [ih _ _ _ hrest]
    simp only [aCount, List.countP_append, List.countP_cons, List.countP_nil,
      List.length_cons]
    simp [roleAssistant, roleTool]
    omega

/-- C5 counterexample: in the concrete run where the first (and only) model
response carries zero tool calls, NO assistant-role turn is appended to the
transcript — the final transcript is just the seeded user turn — refuting
"appended exactly once per model turn, including when the response contains
zero tool calls" (the append sits inside the tool-call loop, lines 112–117). -/
theorem C5_counterexample :
    process_query chatNoTools sessionsAdd ctOk 1 qEx =
      (QOutcome.terminated, [⟨roleUser, qEx⟩], [Ev.modelCall]) ∧
    aCount (process_query chatNoTools sessionsAdd ctOk 1 qEx).2.1 = 0 :=
  ⟨rfl, rfl⟩

/-- C5 amended: the assistant's textual content is appended once per
tool-call iteration, not once per model turn: when every tool call of the
response resolves and succeeds, a turn with role "assistant" (carrying the
response content, even if empty) is appended exactly `tool_calls.length`
times during the turn — in particular zero times when the response carries
zero tool calls. -/
theorem C5_assistant_turn_per_tool_call (sessions : List (String × Nat))
    (callTool : Nat → ToolCall → Except String (List String))
    (resp : ModelResponse) (msgs : List Message) (tr : List Ev)
    (h : ∀ tc ∈ resp.tool_calls, ∃ s texts, dictGet sessions tc.name = some s ∧
      callTool s tc = Except.ok texts) :
    aCount (modelTurn sessions callTool resp msgs tr).1 =
      aCount msgs + resp.tool_calls.length :=
  toolLoop_aCount sessions callTool resp.content resp.tool_calls msgs tr false h

/-- Witness for C5 amended: one resolving, succeeding tool call appends
exactly one assistant turn. -/
theorem C5_assistant_turn_per_tool_call_witness :
    (∀ tc ∈ (ModelResponse.mk emptyStr [tcAdd]).tool_calls, ∃ s texts,
      dictGet sessionsAdd tc.name = some s ∧ ctOk s tc = Except.ok texts) ∧
    aCount (modelTurn sessionsAdd ctOk ⟨emptyStr, [tcAdd]⟩
      [⟨roleUser, qEx⟩] []).1 = aCount [⟨roleUser, qEx⟩] + 1 := by
  have hh : ∀ tc ∈ (ModelResponse.mk emptyStr [tcAdd]).tool_calls, ∃ s texts,
      dictGet sessionsAdd tc.name = some s ∧ ctOk s tc = Except.ok texts := by
    intro tc hm
    rw [List.mem_singleton.1 hm]
    exact ⟨1, [resFive], rfl, rfl⟩
  exact ⟨hh, C5_assistant_turn_per_tool_call sessionsAdd ctOk
    ⟨emptyStr, [tcAdd]⟩ [⟨roleUser, qEx⟩] [] hh⟩

/-- C6 counterexample: a concrete run whose first response carries two
resolving tool calls, the first succeeding and the second raising: the raise
is NOT caught within the dispatch loop — `process_query` ends with a
propagated `raised` outcome, with no tool-result turn for the failing call
and exactly one model-backend invocation (no loop-back), refuting "caught
within the loop ... treated as the end of tool processing for that turn". -/
theorem C6_counterexample :
    process_query chatTwoTools sessionsAB ctMix 3 qEx =
      (QOutcome.raised errBoom,
       [⟨roleUser, qEx⟩, ⟨roleAssistant, emptyStr⟩, ⟨roleTool, resFive⟩,
        ⟨roleAssistant, emptyStr⟩],
       [Ev.modelCall, Ev.toolInvoked alphaStr, Ev.toolInvoked betaStr]) ∧
    (process_query chatTwoTools sessionsAB ctMix 3 qEx).1 ≠
      QOutcome.terminated :=
  ⟨rfl, by decide⟩

/-- C6 amended: an error raised while invoking a resolved tool is not caught
inside `process_query`; it propagates, terminating the dispatch loop for that
query (the failing call contributes no tool-result turn and the model backend
is not re-invoked), and the outer chat loop's handler catches it, prints a
readable "Error: ..." message and continues — the process does not crash.
This failure path is distinct from the in-loop missing-tool batch abort,
which raises nothing. -/
theorem C6_tool_error_propagates_caught_outside
    (chat : List Message → ModelResponse) (sessions : List (String × Nat))
    (callTool : Nat → ToolCall → Except String (List String)) (fuel : Nat)
    (q : String) (msgs2 : List Message) (tr2 : List Ev) (b : Bool) (e : String)
    (hmt : modelTurn sessions callTool (chat [⟨roleUser, q⟩]) [⟨roleUser, q⟩]
      [Ev.modelCall] = (msgs2, tr2, b, some e))
    (hq1 : strTrim q = q) (hq2 : q ≠ "") (hq3 : strLower q ≠ quitWord) :
    process_query chat sessions callTool (fuel + 1) q =
      (QOutcome.raised e, msgs2, tr2) ∧
    chat_loop_step chat sessions callTool (fuel + 1) q =
      ChatStep.caught (errPrefix ++ e) := by
  have hpq : process_query chat sessions callTool (fuel + 1) q =
      (QOutcome.raised e, msgs2, tr2) := by
    cases b <;> simp only [process_query, qloop, List.nil_append, hmt]
  refine ⟨hpq, ?_⟩
  simp only [chat_loop_step, hq1]
  rw [if_neg hq2, if_neg hq3, hpq]

/-- Witness for C6 amended at a concrete raising tool backend. -/
theorem C6_tool_error_propagates_caught_outside_witness :
    (modelTurn sessionsAdd ctErr (chatOneTool [⟨roleUser, qEx⟩])
       [⟨roleUser, qEx⟩] [Ev.modelCall] =
       ([⟨roleUser, qEx⟩, ⟨roleAssistant, emptyStr⟩],
        [Ev.modelCall, Ev.toolInvoked addStr], true, some errBoom) ∧
     strTrim qEx = qEx ∧ qEx ≠ "" ∧ strLower qEx ≠ quitWord) ∧
    (process_query chatOneTool sessionsAdd ctErr 1 qEx =
       (QOutcome.raised errBoom,
        [⟨roleUser, qEx⟩, ⟨roleAssistant, emptyStr⟩],
        [Ev.modelCall, Ev.toolInvoked addStr]) ∧
     chat_loop_step chatOneTool sessionsAdd ctErr 1 qEx =
       ChatStep.caught (errPrefix ++ errBoom)) :=
  ⟨⟨rfl, by decide, by decide, by decide⟩,
   C6_tool_error_propagates_caught_outside chatOneTool sessionsAdd ctErr 0 qEx
     [⟨roleUser, qEx⟩, ⟨roleAssistant, emptyStr⟩]
     [Ev.modelCall, Ev.toolInvoked addStr] true errBoom rfl (by decide)
     (by decide) (by decide)⟩

theorem process_query_head (chat : List Message → ModelResponse)
    (sessions : List (String × Nat))
    (callTool : Nat → ToolCall → Except String (List String)) (fuel : Nat)
    (q : String) :
    (process_query chat sessions callTool fuel q).2.1.head? =
      some ⟨roleUser, q⟩ := by
  obtain ⟨t, ht⟩ :=
    qloop_msgs_ext chat sessions callTool fuel [⟨roleUser, q⟩] []
  show (qloop chat sessions callTool fuel [⟨roleUser, q⟩] []).2.1.head? = _
  rw [ht]
  simp

/-- C7: `get_resource` on an unregistered URI under the recognised papers
scheme prefix: if some registered key carries the papers prefix, the request
resolves via the fallback to the session owning the first prefix-matching key
in iteration order and the read is performed on that session; if no
registered key matches, not-found is reported and no session operation is
performed. -/
theorem C7_papers_fallback (sessions : List (String × Nat))
    (rd : Nat → String → Except String (Option (List String))) (uri : String)
    (h1 : dictGet sessions uri = none)
    (h2 : strStartsWith uri papersPrefix = true) :
    (∀ k s, sessions.find? (fun p => strStartsWith p.1 papersPrefix) =
        some (k, s) →
      (get_resource sessions rd uri).used = some s) ∧
    (sessions.find? (fun p => strStartsWith p.1 papersPrefix) = none →
      get_resource sessions rd uri = ⟨none, ROutcome.notFound⟩) := by
  constructor
  · intro k s hf
    have hres : resolveResource sessions uri = some s := by
      simp [resolveResource, h1, h2, hf]
    rcases hrd : rd s uri with e | o
    · simp [get_resource, hres, hrd]
    · rcases o with _ | l
      · simp [get_resource, hres, hrd]
      · rcases l with _ | ⟨t, l⟩ <;> simp [get_resource, hres, hrd]
  · intro hf
    have hres : resolveResource sessions uri = none := by
      simp [resolveResource, h1, h2, hf]
    simp [get_resource, hres]

/-- Witness for C7: `uriP1` is unregistered, `uriP2` is the first (and only)
papers-prefixed key, owned by session 3; and with no papers key at all the
outcome is not-found. -/
theorem C7_papers_fallback_witness :
    (dictGet sessionsPapers uriP1 = none ∧
     strStartsWith uriP1 papersPrefix = true ∧
     sessionsPapers.find? (fun p => strStartsWith p.1 papersPrefix) =
       some (uriP2, 3) ∧
     (get_resource sessionsPapers rdOk uriP1).used = some 3) ∧
    (dictGet [] uriP1 = none ∧
     ([] : List (String × Nat)).find?
       (fun p => strStartsWith p.1 papersPrefix) = none ∧
     get_resource [] rdOk uriP1 = ⟨none, ROutcome.notFound⟩) :=
  ⟨⟨rfl, rfl, rfl,
    (C7_papers_fallback sessionsPapers rdOk uriP1 (by decide) rfl).1 uriP2 3
      rfl⟩,
   ⟨rfl, rfl, (C7_papers_fallback [] rdOk uriP1 rfl rfl).2 rfl⟩⟩

/-- C9: the prefix fallback of `get_resource` applies only to URIs beginning
with the literal `"papers://"`: for every unregistered URI that does not
start with that prefix, no fallback resolution happens and not-found is
reported immediately, with no session operation performed. -/
theorem C9_no_fallback_outside_papers (sessions : List (String × Nat))
    (rd : Nat → String → Except String (Option (List String))) (uri : String)
    (h1 : dictGet sessions uri = none)
    (h2 : strStartsWith uri papersPrefix = false) :
    get_resource sessions rd uri = ⟨none, ROutcome.notFound⟩ := by
  have hres : resolveResource sessions uri = none := by
    simp [resolveResource, h1, h2]
  simp [get_resource, hres]

/-- Witness for C9: `uriOther` is unregistered and outside the papers scheme
even though a papers key is registered. -/
theorem C9_no_fallback_outside_papers_witness :
    dictGet sessionsPapers uriOther = none ∧
    strStartsWith uriOther papersPrefix = false ∧
    get_resource sessionsPapers rdOk uriOther = ⟨none, ROutcome.notFound⟩ :=
  ⟨by decide, rfl,
   C9_no_fallback_outside_papers sessionsPapers rdOk uriOther (by decide) rfl⟩

/-- C8: when `execute_prompt` resolves the prompt name and the retrieval
returns at least one message, the text extracted from the first message —
the string itself for a plain string, the object's text field for a single
text-bearing object, the items' texts joined with single spaces for a
sequence — is fed verbatim as a new user query into the dispatch loop: the
query recorded as fed is exactly the extracted text, and any dispatch-loop
transcript produced starts with a user turn carrying it. -/
theorem C8_prompt_text_fed_to_dispatch (chat : List Message → ModelResponse)
    (sessions : List (String × Nat))
    (callTool : Nat → ToolCall → Except String (List String)) (fuel : Nat)
    (gp : Nat → String → List (String × String) →
      Except String (Option (List PromptMessage)))
    (name : String) (args : List (String × String)) (s : Nat)
    (m : PromptMessage) (rest : List PromptMessage)
    (hs : dictGet sessions name = some s)
    (hg : gp s name args = Except.ok (some (m :: rest))) :
    (execute_prompt chat sessions callTool fuel gp name args).fed =
      some (extractText m.content) ∧
    (∀ t, m.content = PromptContent.str t → extractText m.content = t) ∧
    (∀ t, m.content = PromptContent.obj t → extractText m.content = t) ∧
    (∀ l, m.content = PromptContent.items l →
      extractText m.content = String.intercalate spaceSep (l.map itemText)) ∧
    (∀ q msgs tr outc,
      (execute_prompt chat sessions callTool fuel gp name args).out =
        POutcome.ran q msgs tr outc →
      q = extractText m.content ∧ msgs.head? = some ⟨roleUser, q⟩) := by
  refine ⟨?_, ?_, ?_, ?_, ?_⟩
  · rcases hp : process_query chat sessions callTool fuel
      (extractText m.content) with ⟨outc0, msgs0, tr0⟩
    cases outc0 <;> simp [execute_prompt, hs, hg, hp]
  · intro t h
    rw [h, extractText]
  · intro t h
    rw [h, extractText]
  · intro l h
    rw [h, extractText]
  · intro q msgs tr outc hout
    rcases hp : process_query chat sessions callTool fuel
      (extractText m.content) with ⟨outc0, msgs0, tr0⟩
    have hhead := process_query_head chat sessions callTool fuel
      (extractText m.content)
    rw [hp] at hhead
    simp only at hhead
    cases outc0 with
    | raised e => simp [execute_prompt, hs, hg, hp] at hout
    | terminated =>
      simp only [execute_prompt, hs, hg, hp, POutcome.ran.injEq] at hout
      rcases hout with ⟨hq, hm, _, _⟩
      exact ⟨hq.symm, by rw [← hm, ← hq]; exact hhead⟩
    | fuelOut =>
      simp only [execute_prompt, hs, hg, hp, POutcome.ran.injEq] at hout
      rcases hout with ⟨hq, hm, _, _⟩
      exact ⟨hq.symm, by rw [← hm, ← hq]; exact hhead⟩

/-- Witness for C8: a prompt whose first message content is the literal
string `"Summarize X"` feeds exactly that string into the dispatch loop. -/
theorem C8_prompt_text_fed_to_dispatch_witness :
    dictGet sessionsP pStr = some 1 ∧
    gpStr 1 pStr [] = Except.ok (some [pmStr]) ∧
    (execute_prompt chatNoTools sessionsP ctOk 1 gpStr pStr []).fed =
      some sumStr :=
  ⟨rfl, rfl,
   (C8_prompt_text_fed_to_dispatch chatNoTools sessionsP ctOk 1 gpStr pStr []
     1 pmStr [] rfl rfl).1⟩

/-- C10: when `execute_prompt` resolves the prompt name but the retrieval
operation returns a falsy result or a result with no messages, the function
returns silently: the dispatch loop is not invoked (no query is fed) and no
error or not-found message is reported. -/
theorem C10_empty_prompt_silent (chat : List Message → ModelResponse)
    (sessions : List (String × Nat))
    (callTool : Nat → ToolCall → Except String (List String)) (fuel : Nat)
    (gp : Nat → String → List (String × String) →
      Except String (Option (List PromptMessage)))
    (name : String) (args : List (String × String)) (s : Nat)
    (hs : dictGet sessions name = some s) :
    (gp s name args = Except.ok none →
      execute_prompt chat sessions callTool fuel gp name args =
        ⟨none, POutcome.silent⟩) ∧
    (gp s name args = Except.ok (some []) →
      execute_prompt chat sessions callTool fuel gp name args =
        ⟨none, POutcome.silent⟩) := by
  constructor <;> intro hg <;> simp [execute_prompt, hs, hg]

/-- Witness for C10 at concrete falsy and empty prompt retrievals. -/
theorem C10_empty_prompt_silent_witness :
    dictGet sessionsP pStr = some 1 ∧
    gpFalsy 1 pStr [] = Except.ok none ∧
    gpEmpty 1 pStr [] = Except.ok (some []) ∧
    execute_prompt chatNoTools sessionsP ctOk 1 gpFalsy pStr [] =
      ⟨none, POutcome.silent⟩ ∧
    execute_prompt chatNoTools sessionsP ctOk 1 gpEmpty pStr [] =
      ⟨none, POutcome.silent⟩ :=
  ⟨rfl, rfl, rfl,
   (C10_empty_prompt_silent chatNoTools sessionsP ctOk 1 gpFalsy pStr [] 1
     rfl).1 rfl,
   (C10_empty_prompt_silent chatNoTools sessionsP ctOk 1 gpEmpty pStr [] 1
     rfl).2 rfl⟩

end MCPClient
